import Mathlib

/-!
Verification of the CheatBook real-time collaborative synchronization subsystem.

The development shallowly embeds the JavaScript source:

* `CollabSvc` embeds `src/server/services/collaborative-editing.service.js`
  (in-memory document store: `getOrCreateDocument`, `updateDocument`).
* `SockSvc` embeds the Socket.IO service (`src/unnamed/part_010`): connection
  registry, reconnection timeouts, note join/leave/disconnect handling and the
  image-upload completion handler, together with the parts of the
  operation-based collaborative-editing service that part_010 calls
  (`joinSession`, `leaveSession`, `applyOperation`, `cleanupDocument`); the
  implementation of those called functions is not under `src/`, so they are
  modelled from the spec where noted.

JavaScript `Map`s are embedded as association lists with unique keys
(`alookup` / `aset` / `aremove`); stateful handlers are embedded as explicit
state-passing functions that also return the list of emitted events
("effects"), in emission order.
-/

/-- Association-list lookup (embeds JS `Map.get`). -/
def alookup {α : Type} : List (String × α) → String → Option α
  | [], _ => none
  | (k1, v) :: rest, k => if k1 = k then some v else alookup rest k

/-- Association-list removal (embeds JS `Map.delete`; keys are unique). -/
def aremove {α : Type} : List (String × α) → String → List (String × α)
  | [], _ => []
  | (k1, v) :: rest, k => if k1 = k then aremove rest k else (k1, v) :: aremove rest k

/-- Association-list insert/overwrite (embeds JS `Map.set`).
Keys stay unique; entry order is irrelevant to the embedded code. -/
def aset {α : Type} (l : List (String × α)) (k : String) (v : α) : List (String × α) :=
  (k, v) :: aremove l k

namespace CollabSvc

/-!
Embedding of `src/server/services/collaborative-editing.service.js`.

The module keeps four in-memory maps; `getOrCreateDocument` and
`updateDocument` (the functions the claims are about) touch only `documents`,
so the state carries just that map.  Versions are embedded as `Nat`
(the protocol only ever passes non-negative integer versions).
-/

/-- A document as created by `getOrCreateDocument`:
`{ id: noteId, content: initialContent, version: 1, users: new Set() }`. -/
structure CollabDoc where
  id : String
  content : String
  version : Nat
  users : List String
deriving Repr, DecidableEq

/-- The module-level `documents` map. -/
structure CollabState where
  documents : List (String × CollabDoc)
deriving Repr, DecidableEq

/-- Embeds `getOrCreateDocument(noteId, initialContent = '')`:
returns the existing document, or creates `{id, content: initialContent,
version: 1, users: ∅}` and stores it. -/
def getOrCreateDocument (s : CollabState) (noteId : String) (initialContent : String) :
    CollabDoc × CollabState :=
  match alookup s.documents noteId with
  | some d => (d, s)
  | none =>
    let d : CollabDoc := { id := noteId, content := initialContent, version := 1, users := [] }
    (d, ⟨aset s.documents noteId d⟩)

/-- Result object of `updateDocument`.  The JS conflict branch returns
`{success:false, conflict:true, currentVersion, latestContent}` and the
success branch `{success:true, version}`; absent fields are `none`
(JS `undefined`, falsy for `conflict`). -/
structure UpdateResult where
  success : Bool
  conflict : Bool
  currentVersion : Option Nat
  latestContent : Option String
  version : Option Nat
deriving Repr, DecidableEq

/-- Embeds `updateDocument(noteId, content, version)`:
get-or-create the document; if `version < doc.version` return the conflict
object and mutate nothing; otherwise set `doc.content = content`,
`doc.version = version + 1` and return `{success:true, version: doc.version}`. -/
def updateDocument (s : CollabState) (noteId content : String) (version : Nat) :
    UpdateResult × CollabState :=
  let ds := getOrCreateDocument s noteId ""
  let doc := ds.1
  let s1 := ds.2
  if version < doc.version then
    ({ success := false, conflict := true, currentVersion := some doc.version,
       latestContent := some doc.content, version := none }, s1)
  else
    let doc2 : CollabDoc := { doc with content := content, version := version + 1 }
    ({ success := true, conflict := false, currentVersion := none,
       latestContent := none, version := some doc2.version },
     ⟨aset s1.documents noteId doc2⟩)

/-- Version of the stored document for a note, if present. -/
def docVersion (s : CollabState) (noteId : String) : Option Nat :=
  (alookup s.documents noteId).map CollabDoc.version

/-- Content of the stored document for a note, if present. -/
def docContent (s : CollabState) (noteId : String) : Option String :=
  (alookup s.documents noteId).map CollabDoc.content

/-- Runs a list of `updateDocument` submissions `(content, version)` in order,
keeping only the final state. -/
def runUpdates (s : CollabState) (noteId : String) (subs : List (String × Nat)) : CollabState :=
  subs.foldl (fun st sub => (updateDocument st noteId sub.1 sub.2).2) s

/-- Counts the submissions of a run that `updateDocument` accepts
(`success = true`). -/
def acceptedCount (s : CollabState) (noteId : String) : List (String × Nat) → Nat
  | [] => 0
  | sub :: rest =>
    let rs := updateDocument s noteId sub.1 sub.2
    (if rs.1.success then 1 else 0) + acceptedCount rs.2 noteId rest

/-- A submission sequence is in order when each submission carries exactly the
version the document holds at the moment it is applied. -/
def inOrderSubs (s : CollabState) (noteId : String) : List (String × Nat) → Bool
  | [] => true
  | sub :: rest =>
    sub.2 == (getOrCreateDocument s noteId "").1.version &&
      inOrderSubs (updateDocument s noteId sub.1 sub.2).2 noteId rest

end CollabSvc

namespace SockSvc

/-!
Embedding of the Socket.IO service, `src/unnamed/part_010`.

The handlers mutate module state (`userSockets`, `userConnections`,
`disconnectionTimeouts`) and the collaborative-editing session store, and emit
socket events.  Each handler is embedded as `state → state × List Effect`,
the effect list in emission order.  Timers (`setTimeout`) are embedded as
pending-timer sets in the state plus explicit fire events; `clearTimeout`
removes the pending entry, and a timer firing after cancellation is a no-op.
Broadcast payload fields that only re-package names/colors for display are
reduced to the lists of user ids they enumerate.
-/

/-- JavaScript 32-bit signed integer wrap (`| 0`). -/
def toInt32 (n : Int) : Int := (n + 2147483648) % 4294967296 - 2147483648

/-- One iteration of the `getRandomColor` hash loop:
`hash = ((hash << 5) - hash) + userId.charCodeAt(i); hash |= 0;`
(`<<` wraps to Int32; `charCodeAt` is the code unit, which for the
basic-multilingual-plane characters used here equals the code point). -/
def hashStep (h : Int) (c : Char) : Int :=
  toInt32 (toInt32 (h * 32) - h + c.toNat)

/-- The hash accumulated over the characters of `userId`. -/
def hashString (u : String) : Int := u.toList.foldl hashStep 0

/-- Embeds `getRandomColor(userId)` (part_010 lines 568-583): hash the user id,
then `h = |hash % 360|`, `s = 70 + |(hash >> 8) % 30|`, `l = 35 + |(hash >> 16) % 15|`,
returning the `hsl(h, s%, l%)` string.  JavaScript `>>` is an arithmetic
shift, i.e. floor division by a power of two; `Math.abs(x % m)` for an
integer `x` equals `|x| % m`. -/
def getRandomColor (userId : String) : String :=
  let hash := hashString userId
  let h := hash.natAbs % 360
  let s := 70 + (Int.fdiv hash 256).natAbs % 30
  let l := 35 + (Int.fdiv hash 65536).natAbs % 15
  "hsl(" ++ toString h ++ ", " ++ toString s ++ "%, " ++ toString l ++ "%)"

/-- Operation kinds of the collaborative editor (`type: 'insert' | 'replace'`). -/
inductive OpKind where
  | insert
  | replace
deriving Repr, DecidableEq

/-- An edit operation as built by part_010: `{type, index, length, text, userId}`
(`length` is only meaningful for `replace`). -/
structure Op where
  kind : OpKind
  index : Nat
  length : Nat
  text : String
  userId : String
deriving Repr, DecidableEq

/-- A collaborative-editing session for one note.
Modelled from the spec: the Session of the operation-based
collaborative-editing service used by part_010 (its implementation is not
under `src/`; the spec's Data Model §3 gives
`{content, version, participants}`, plus the typing set of §4.4). -/
structure Session where
  content : String
  version : Nat
  participants : List String
  typing : List String
deriving Repr, DecidableEq

/-- Applying an operation's text edit to a content string.
Modelled from the spec: §4.2 — "insert: splice text at index; replace:
substitute a length-delimited span". -/
def applyOpText (c : String) (op : Op) : String :=
  match op.kind with
  | OpKind.insert => String.mk (c.toList.take op.index ++ op.text.toList ++ c.toList.drop op.index)
  | OpKind.replace => String.mk (c.toList.take op.index ++ op.text.toList ++ c.toList.drop (op.index + op.length))

/-- Result of `applyOperation`: `{content, version, conflict}` (spec §4.2). -/
structure ApplyResult where
  content : String
  version : Nat
  conflict : Bool
deriving Repr, DecidableEq

/-- Modelled from the spec: the Synchronization Engine's
`applyOperation(noteId, operation, baseVersion)` of the operation-based
collaborative-editing service, whose implementation is not under `src/`
(part_010 only calls it).  Spec §4.2: if `baseVersion < session.version`,
return `conflict=true` with the authoritative `{content, version}` and mutate
nothing; otherwise apply the operation deterministically, increment
`version`, store the new content, and return `conflict=false`. -/
def applyOperation (sess : Session) (op : Op) (baseVersion : Nat) : ApplyResult × Session :=
  if baseVersion < sess.version then
    ({ content := sess.content, version := sess.version, conflict := true }, sess)
  else
    let newContent := applyOpText sess.content op
    let sess2 : Session := { sess with content := newContent, version := sess.version + 1 }
    ({ content := newContent, version := sess2.version, conflict := false }, sess2)

/-- Modelled from the spec: `joinSession(noteId, userId, userData)` adds the
user to the session's participant set (§3 Participant; part_010 initializes
the document before calling it, so an absent session is left untouched). -/
def joinSession (sessions : List (String × Session)) (noteId userId : String) :
    List (String × Session) :=
  match alookup sessions noteId with
  | none => sessions
  | some sess =>
    aset sessions noteId
      ({ sess with participants :=
          if userId ∈ sess.participants then sess.participants
          else sess.participants ++ [userId] })

/-- Modelled from the spec: `leaveSession(noteId, userId)` removes the user
from the session's participant set and typing set (§3: typing entries are
removed on leave or disconnect). -/
def leaveSession (sessions : List (String × Session)) (noteId userId : String) :
    List (String × Session) :=
  match alookup sessions noteId with
  | none => sessions
  | some sess =>
    aset sessions noteId
      ({ sess with participants := sess.participants.filter (fun u => u ≠ userId),
                   typing := sess.typing.filter (fun u => u ≠ userId) })

/-- Modelled from the spec: `cleanupDocument(noteId)` removes the in-memory
session state.  The flush to the Document Store is performed by its caller
(`handleUserLeaveNote` saves before scheduling the cleanup timer), matching
spec §8 Scenario D's single save before removal. -/
def cleanupDocument (sessions : List (String × Session)) (noteId : String) :
    List (String × Session) :=
  aremove sessions noteId

/-- A connected socket: the `userSockets` entry (`userId`, `name`, `color`)
merged with the `socket.currentNoteId` field part_010 stores on the live
socket object. -/
structure SockInfo where
  userId : String
  name : String
  color : String
  currentNoteId : Option String
deriving Repr, DecidableEq

/-- The socket-service state: part_010's module maps, the session store of the
collaborative-editing service, the external Document Store (`notes` table
content), and the external access-control facts consulted by
`checkNoteAccess` (a database query, embedded as a membership test). -/
structure SrvState where
  sockets : List (String × SockInfo)
  userConnections : List (String × List String)
  disconnectionTimeouts : List String
  noteCleanupTimers : List String
  sessions : List (String × Session)
  store : List (String × String)
  acl : List (String × String)
deriving Repr, DecidableEq

/-- Observable events emitted by the handlers, in emission order. -/
inductive Effect where
  | noteState (noteId : String) (version : Nat) (content : String)
  | usersChanged (noteId : String) (users : List String)
  | typingUpdated (noteId : String) (users : List String)
  | saveNote (noteId : String) (content : String)
  | sessionRemoved (noteId : String)
  | uploadCompleteMsg (noteId imageId url : String) (insertPosition : Option Nat)
  | opApplied (noteId : String) (op : Op) (newVersion : Nat)
  | errMsg (msg : String)
deriving Repr, DecidableEq

/-- Embeds the `io.on('connection')` prologue (part_010 lines 63-86): record
the socket in `userSockets` with `color = getRandomColor(userId)`, add it to
`userConnections`, and clear any pending disconnection timeout for the user. -/
def handleConnect (s : SrvState) (sockId userId name : String) : SrvState × List Effect :=
  let info : SockInfo :=
    { userId := userId, name := name, color := getRandomColor userId, currentNoteId := none }
  let s1 : SrvState := { s with sockets := aset s.sockets sockId info }
  let conns := (alookup s1.userConnections userId).getD []
  let conns2 := if sockId ∈ conns then conns else conns ++ [sockId]
  let s2 : SrvState := { s1 with userConnections := aset s1.userConnections userId conns2 }
  let timeouts :=
    if userId ∈ s2.disconnectionTimeouts then
      s2.disconnectionTimeouts.filter (fun u => u ≠ userId)
    else s2.disconnectionTimeouts
  ({ s2 with disconnectionTimeouts := timeouts }, [])

/-- The tail of the `join-note` handler after the document is initialized:
`joinSession`, read the document state, emit `note-state` to the joiner and
`users-changed` to the room. -/
def joinEmit (s : SrvState) (noteId userId : String) : SrvState × List Effect :=
  let s2 : SrvState := { s with sessions := joinSession s.sessions noteId userId }
  match alookup s2.sessions noteId with
  | none => (s2, [])
  | some sess =>
    (s2, [Effect.noteState noteId sess.version sess.content,
          Effect.usersChanged noteId sess.participants])

/-- Embeds the `join-note` handler (part_010 lines 89-137): access check,
record `socket.currentNoteId`, initialize the document from the Document
Store if no session exists (a missing note makes the initialization throw and
the catch emit an error), then join the session and emit the state. -/
def handleJoinNote (s : SrvState) (sockId noteId : String) : SrvState × List Effect :=
  match alookup s.sockets sockId with
  | none => (s, [])
  | some sock =>
    if (sock.userId, noteId) ∈ s.acl then
      let s1 : SrvState :=
        { s with sockets := aset s.sockets sockId ({ sock with currentNoteId := some noteId }) }
      match alookup s1.sessions noteId with
      | some _ => joinEmit s1 noteId sock.userId
      | none =>
        match alookup s1.store noteId with
        | none => (s1, [Effect.errMsg "Failed to join note"])
        | some content =>
          let sess0 : Session :=
            { content := content, version := 1, participants := [], typing := [] }
          joinEmit { s1 with sessions := aset s1.sessions noteId sess0 } noteId sock.userId
    else (s, [Effect.errMsg "Access denied to this note"])

/-- Embeds `handleUserLeaveNote(socket, noteId)` (part_010 lines 148-211):
leave the session; if the user has no other live connection viewing this
note, emit `users-changed` and `typing-updated` to the room, and — when no
participants remain — save the final content to the Document Store and
schedule the cleanup timer for the reconnection window. -/
def handleUserLeaveNote (s : SrvState) (sockId : String) (noteId : Option String) :
    SrvState × List Effect :=
  match noteId with
  | none => (s, [])
  | some n =>
    match alookup s.sockets sockId with
    | none => (s, [])
    | some sock =>
      let s1 : SrvState := { s with sessions := leaveSession s.sessions n sock.userId }
      let otherConns := ((alookup s1.userConnections sock.userId).getD []).filter
        (fun sid => sid ≠ sockId)
      let hasOther := otherConns.any (fun sid =>
        match alookup s1.sockets sid with
        | some osock => osock.currentNoteId = some n
        | none => false)
      if hasOther then (s1, [])
      else
        match alookup s1.sessions n with
        | none => (s1, [])
        | some sess =>
          if sess.participants.isEmpty then
            let timers :=
              if n ∈ s1.noteCleanupTimers then s1.noteCleanupTimers
              else s1.noteCleanupTimers ++ [n]
            ({ s1 with store := aset s1.store n sess.content, noteCleanupTimers := timers },
             [Effect.usersChanged n sess.participants,
              Effect.typingUpdated n sess.typing,
              Effect.saveNote n sess.content])
          else
            (s1, [Effect.usersChanged n sess.participants,
                  Effect.typingUpdated n sess.typing])

/-- Embeds the `disconnect` handler (part_010 lines 509-540): run
`handleUserLeaveNote` for the socket's current note, drop the socket from
`userConnections`, start the 30-second disconnection timeout when it was the
user's last connection, and remove the socket from `userSockets`. -/
def handleDisconnect (s : SrvState) (sockId : String) : SrvState × List Effect :=
  match alookup s.sockets sockId with
  | none => (s, [])
  | some sock =>
    let r1 := handleUserLeaveNote s sockId sock.currentNoteId
    let s1 := r1.1
    let s2 : SrvState :=
      match alookup s1.userConnections sock.userId with
      | none => s1
      | some cs =>
        let conns := cs.filter (fun sid => sid ≠ sockId)
        if conns.isEmpty then
          let timeouts :=
            if sock.userId ∈ s1.disconnectionTimeouts then s1.disconnectionTimeouts
            else s1.disconnectionTimeouts ++ [sock.userId]
          { s1 with userConnections := aremove s1.userConnections sock.userId,
                    disconnectionTimeouts := timeouts }
        else { s1 with userConnections := aset s1.userConnections sock.userId conns }
    ({ s2 with sockets := aremove s2.sockets sockId }, r1.2)

/-- Embeds the disconnection-timeout callback (part_010 lines 525-531): when
it fires it only removes its own pending entry and logs — the body performs
no other cleanup and emits nothing.  Firing after cancellation is a no-op. -/
def fireUserOfflineTimer (s : SrvState) (userId : String) : SrvState × List Effect :=
  if userId ∈ s.disconnectionTimeouts then
    ({ s with disconnectionTimeouts := s.disconnectionTimeouts.filter (fun u => u ≠ userId) }, [])
  else (s, [])

/-- Embeds the note-cleanup timeout scheduled by `handleUserLeaveNote`
(part_010 lines 199-206): when it fires, re-check that no users have
rejoined, and only then remove the in-memory document state.  Firing after
cancellation is a no-op. -/
def fireNoteCleanupTimer (s : SrvState) (noteId : String) : SrvState × List Effect :=
  if noteId ∈ s.noteCleanupTimers then
    let s1 : SrvState := { s with noteCleanupTimers := s.noteCleanupTimers.filter (fun n => n ≠ noteId) }
    match alookup s1.sessions noteId with
    | some sess =>
      if sess.participants.isEmpty then
        ({ s1 with sessions := cleanupDocument s1.sessions noteId }, [Effect.sessionRemoved noteId])
      else (s1, [])
    | none => (s1, [])
  else (s, [])

/-- The insert operation part_010 synthesizes on upload completion:
`{type:'insert', index: insertPosition, text:'![Image](url)', userId}`
(markdown-format image reference). -/
def uploadInsertOp (i : Nat) (url userId : String) : Op :=
  { kind := OpKind.insert, index := i, length := 0,
    text := "![Image](" ++ url ++ ")", userId := userId }

/-- Embeds the `image-upload-complete` handler (part_010 lines 443-488):
require `noteId`, `imageId`, `url` truthy; broadcast the completion to the
room; then, when `insertPosition` is defined and the document exists,
synthesize `{type:'insert', index: insertPosition, text:'![Image](url)'}`
and apply it through `applyOperation` against the document's current version
(no second broadcast). -/
def handleUploadComplete (s : SrvState) (sockId noteId imageId url : String)
    (insertPosition : Option Nat) : SrvState × List Effect :=
  match alookup s.sockets sockId with
  | none => (s, [])
  | some sock =>
    if noteId = "" ∨ imageId = "" ∨ url = "" then (s, [])
    else
      let eff0 := Effect.uploadCompleteMsg noteId imageId url insertPosition
      match insertPosition with
      | none => (s, [eff0])
      | some i =>
        match alookup s.sessions noteId with
        | none => (s, [eff0])
        | some sess =>
          let op : Op := uploadInsertOp i url sock.userId
          let rs := applyOperation sess op sess.version
          ({ s with sessions := aset s.sessions noteId rs.2 },
           [eff0, Effect.opApplied noteId op rs.1.version])

/-- The external events the embedded handlers react to: connections, note
joins, disconnections, the two kinds of timer firing, and upload completion. -/
inductive Ev where
  | connect (sockId userId name : String)
  | joinNote (sockId noteId : String)
  | disconnect (sockId : String)
  | userTimerFires (userId : String)
  | noteTimerFires (noteId : String)
  | uploadComplete (sockId noteId imageId url : String) (insertPosition : Option Nat)
deriving Repr, DecidableEq

/-- Dispatches one event to its handler. -/
def step (s : SrvState) : Ev → SrvState × List Effect
  | Ev.connect sockId userId name => handleConnect s sockId userId name
  | Ev.joinNote sockId noteId => handleJoinNote s sockId noteId
  | Ev.disconnect sockId => handleDisconnect s sockId
  | Ev.userTimerFires userId => fireUserOfflineTimer s userId
  | Ev.noteTimerFires noteId => fireNoteCleanupTimer s noteId
  | Ev.uploadComplete sockId noteId imageId url pos =>
      handleUploadComplete s sockId noteId imageId url pos

/-- Runs a sequence of events, concatenating the emitted effects in order. -/
def runEvents (s : SrvState) : List Ev → SrvState × List Effect
  | [] => (s, [])
  | ev :: rest =>
    let r := step s ev
    let r2 := runEvents r.1 rest
    (r2.1, r.2 ++ r2.2)

/-- The presence color recorded for a socket. -/
def colorOf (s : SrvState) (sockId : String) : Option String :=
  (alookup s.sockets sockId).map SockInfo.color

end SockSvc

/-! ## Association-list lemmas -/

@[simp] theorem alookup_nil {α : Type} (k : String) : alookup ([] : List (String × α)) k = none := rfl

@[simp] theorem alookup_cons {α : Type} (k1 k : String) (v : α) (rest : List (String × α)) :
    alookup ((k1, v) :: rest) k = if k1 = k then some v else alookup rest k := rfl

@[simp] theorem alookup_aremove_same {α : Type} (l : List (String × α)) (k : String) :
    alookup (aremove l k) k = none := by
  induction l with
  | nil => rfl
  | cons p rest ih =>
    obtain ⟨k1, v⟩ := p
    by_cases hk : k1 = k
    · simp [aremove, hk, ih]
    · simp [aremove, hk, ih]

theorem alookup_aremove_other {α : Type} (l : List (String × α)) (k k' : String)
    (h : k' ≠ k) : alookup (aremove l k) k' = alookup l k' := by
  induction l with
  | nil => rfl
  | cons p rest ih =>
    obtain ⟨k1, v⟩ := p
    by_cases hk : k1 = k
    · subst hk
      simp [aremove, Ne.symm h, ih]
    · simp [aremove, hk, ih]

@[simp] theorem alookup_aset_same {α : Type} (l : List (String × α)) (k : String) (v : α) :
    alookup (aset l k v) k = some v := by
  simp [aset]

theorem alookup_aset_other {α : Type} (l : List (String × α)) (k k' : String) (v : α)
    (h : k' ≠ k) : alookup (aset l k v) k' = alookup l k' := by
  simp [aset, Ne.symm h, alookup_aremove_other l k k' h]

/-! ## Claims about `updateDocument` / `getOrCreateDocument`
(`src/server/services/collaborative-editing.service.js`) -/

/-- C1: for every call to `updateDocument(noteId, content, version)` in which
the submitted version is strictly less than the document's current version,
the result has `conflict = true` and carries the current authoritative
content and version (`currentVersion`, `latestContent`), and the document —
indeed the whole store — is left unchanged by the call. -/
theorem C1_conflict_leaves_document_unchanged (s : CollabSvc.CollabState)
    (n c : String) (v : Nat) (d : CollabSvc.CollabDoc)
    (hd : alookup s.documents n = some d) (hv : v < d.version) :
    CollabSvc.updateDocument s n c v =
      ({ success := false, conflict := true, currentVersion := some d.version,
         latestContent := some d.content, version := none }, s) := by
  simp [CollabSvc.updateDocument, CollabSvc.getOrCreateDocument, hd, hv]

/-- Witness for C1 at a concrete input: a store holding `"n1"` at version 3,
submitting version 2. -/
theorem C1_conflict_leaves_document_unchanged_witness :
    (alookup (CollabSvc.CollabState.mk [("n1", ⟨"n1", "hello", 3, []⟩)]).documents "n1" =
        some ⟨"n1", "hello", 3, []⟩ ∧ (2 : Nat) < 3) ∧
    CollabSvc.updateDocument ⟨[("n1", ⟨"n1", "hello", 3, []⟩)]⟩ "n1" "x" 2 =
      ({ success := false, conflict := true, currentVersion := some 3,
         latestContent := some "hello", version := none },
       ⟨[("n1", ⟨"n1", "hello", 3, []⟩)]⟩) :=
  ⟨⟨by decide, by decide⟩,
   C1_conflict_leaves_document_unchanged ⟨[("n1", ⟨"n1", "hello", 3, []⟩)]⟩ "n1" "x" 2
     ⟨"n1", "hello", 3, []⟩ (by decide) (by decide)⟩

/-- C2 counterexample: the claim says any `baseVersion` other than the current
version is rejected — in particular a `baseVersion` strictly greater than the
current version.  On the code, submitting version 2 against a document at
version 1 is accepted (`success = true`, no conflict) and mutates the
document to version 3 with the submitted content, so the claim is false. -/
theorem C2_greater_version_accepted_counterexample :
    let s0 : CollabSvc.CollabState := ⟨[("n1", ⟨"n1", "old", 1, []⟩)]⟩
    let r := CollabSvc.updateDocument s0 "n1" "new" 2
    r.1.success = true ∧ r.1.conflict = false ∧
      CollabSvc.docVersion r.2 "n1" = some 3 ∧
      CollabSvc.docContent r.2 "n1" = some "new" := by
  decide

/-- C2 (amended): an edit submission is accepted if and only if the submitted
version is greater than or equal to the document's current version; any
strictly smaller version is rejected with the authoritative state (and in
particular a version strictly greater than the current version is accepted,
not rejected). -/
theorem C2_accept_iff_version_ge (s : CollabSvc.CollabState)
    (n c : String) (v : Nat) (d : CollabSvc.CollabDoc)
    (hd : alookup s.documents n = some d) :
    ((CollabSvc.updateDocument s n c v).1.success = true ↔ d.version ≤ v) ∧
    (v < d.version →
      CollabSvc.updateDocument s n c v =
        ({ success := false, conflict := true, currentVersion := some d.version,
           latestContent := some d.content, version := none }, s)) := by
  by_cases hv : v < d.version
  · constructor
    · simp [CollabSvc.updateDocument, CollabSvc.getOrCreateDocument, hd, hv]
    · intro _
      simp [CollabSvc.updateDocument, CollabSvc.getOrCreateDocument, hd, hv]
  · constructor
    · simp [CollabSvc.updateDocument, CollabSvc.getOrCreateDocument, hd, hv]
      omega
    · intro h
      exact absurd h hv

/-- Witness for C2 (amended) at a concrete input: document at version 2,
submitted version 5 is accepted. -/
theorem C2_accept_iff_version_ge_witness :
    (alookup (CollabSvc.CollabState.mk [("n1", ⟨"n1", "old", 2, []⟩)]).documents "n1" =
        some ⟨"n1", "old", 2, []⟩) ∧
    (((CollabSvc.updateDocument ⟨[("n1", ⟨"n1", "old", 2, []⟩)]⟩ "n1" "new" 5).1.success = true ↔
        (2 : Nat) ≤ 5) ∧
     ((5 : Nat) < 2 →
       CollabSvc.updateDocument ⟨[("n1", ⟨"n1", "old", 2, []⟩)]⟩ "n1" "new" 5 =
         ({ success := false, conflict := true, currentVersion := some 2,
            latestContent := some "old", version := none },
          ⟨[("n1", ⟨"n1", "old", 2, []⟩)]⟩))) :=
  ⟨by decide,
   C2_accept_iff_version_ge ⟨[("n1", ⟨"n1", "old", 2, []⟩)]⟩ "n1" "new" 5
     ⟨"n1", "old", 2, []⟩ (by decide)⟩

/-- C3 counterexample: the claim says the version equals the count of accepted
operations.  On the code, a freshly created document starts at version 1 and
an accepted submission at version `v` stores `v + 1`: after one accepted
in-order operation the document holds version 2 while the accepted count
is 1, so the claim is false. -/
theorem C3_version_equals_count_counterexample :
    let s0 : CollabSvc.CollabState := ⟨[("n1", ⟨"n1", "x", 1, []⟩)]⟩
    CollabSvc.acceptedCount s0 "n1" [("y", 1)] = 1 ∧
    CollabSvc.docVersion (CollabSvc.runUpdates s0 "n1" [("y", 1)]) "n1" ≠
      some (CollabSvc.acceptedCount s0 "n1" [("y", 1)]) := by
  decide

/-- C3 (amended): for every sequence of submissions to one note in which each
submission carries exactly the document's version at the moment it is applied
(`inOrderSubs`), every submission is accepted, the final version equals the
starting version (1 for a session created by `getOrCreateDocument`) plus the
count of accepted operations, and the content equals the left-fold of the
operations — each a whole-content replacement — over the starting content. -/
theorem C3_inorder_version_and_content (n : String) (subs : List (String × Nat)) :
    ∀ (s : CollabSvc.CollabState) (d : CollabSvc.CollabDoc),
      alookup s.documents n = some d →
      CollabSvc.inOrderSubs s n subs = true →
      CollabSvc.acceptedCount s n subs = subs.length ∧
      CollabSvc.docVersion (CollabSvc.runUpdates s n subs) n = some (d.version + subs.length) ∧
      CollabSvc.docContent (CollabSvc.runUpdates s n subs) n =
        some (subs.foldl (fun _ sub => sub.1) d.content) := by
  induction subs with
  | nil =>
    intro s d hd _
    simp [CollabSvc.acceptedCount, CollabSvc.runUpdates, CollabSvc.docVersion,
      CollabSvc.docContent, hd]
  | cons sub rest ih =>
    intro s d hd hio
    obtain ⟨c, v⟩ := sub
    have hgoc : CollabSvc.getOrCreateDocument s n "" = (d, s) := by
      simp [CollabSvc.getOrCreateDocument, hd]
    rw [CollabSvc.inOrderSubs, Bool.and_eq_true, beq_iff_eq, hgoc] at hio
    obtain ⟨hv, hio2⟩ := hio
    have hv' : v = d.version := hv
    subst hv'
    have hupd : CollabSvc.updateDocument s n c d.version =
        ({ success := true, conflict := false, currentVersion := none,
           latestContent := none, version := some (d.version + 1) },
         ⟨aset s.documents n ({ d with content := c, version := d.version + 1 })⟩) := by
      simp [CollabSvc.updateDocument, hgoc]
    have hst : (CollabSvc.updateDocument s n c d.version).2 =
        CollabSvc.CollabState.mk
          (aset s.documents n ({ d with content := c, version := d.version + 1 })) := by
      rw [hupd]
    have hd2 : alookup (CollabSvc.CollabState.mk
        (aset s.documents n ({ d with content := c, version := d.version + 1 }))).documents n =
        some ({ d with content := c, version := d.version + 1 }) := by
      simp
    rw [hst] at hio2
    have hrec := ih _ _ hd2 hio2
    have hrun : CollabSvc.runUpdates s n ((c, d.version) :: rest) =
        CollabSvc.runUpdates (CollabSvc.CollabState.mk
          (aset s.documents n ({ d with content := c, version := d.version + 1 }))) n rest := by
      rw [CollabSvc.runUpdates, List.foldl_cons, ← CollabSvc.runUpdates, hst]
    refine ⟨?_, ?_, ?_⟩
    · rw [CollabSvc.acceptedCount, hupd]
      simp only [List.length_cons]
      rw [hrec.1]
      simp [Nat.add_comm]
    · rw [hrun, hrec.2.1]
      simp only [Option.some.injEq, List.length_cons]
      omega
    · rw [hrun, hrec.2.2]
      simp

/-- Witness for C3 (amended) at a concrete input: a document at version 1 and
the in-order submissions `("a", 1), ("b", 2)` — both accepted, final version
3 = 1 + 2, final content `"b"`. -/
theorem C3_inorder_version_and_content_witness :
    (alookup (CollabSvc.CollabState.mk [("n1", ⟨"n1", "x", 1, []⟩)]).documents "n1" =
        some ⟨"n1", "x", 1, []⟩ ∧
     CollabSvc.inOrderSubs ⟨[("n1", ⟨"n1", "x", 1, []⟩)]⟩ "n1" [("a", 1), ("b", 2)] = true) ∧
    (CollabSvc.acceptedCount ⟨[("n1", ⟨"n1", "x", 1, []⟩)]⟩ "n1" [("a", 1), ("b", 2)] =
       ([("a", 1), ("b", 2)] : List (String × Nat)).length ∧
     CollabSvc.docVersion
       (CollabSvc.runUpdates ⟨[("n1", ⟨"n1", "x", 1, []⟩)]⟩ "n1" [("a", 1), ("b", 2)]) "n1" =
       some (1 + ([("a", 1), ("b", 2)] : List (String × Nat)).length) ∧
     CollabSvc.docContent
       (CollabSvc.runUpdates ⟨[("n1", ⟨"n1", "x", 1, []⟩)]⟩ "n1" [("a", 1), ("b", 2)]) "n1" =
       some (([("a", 1), ("b", 2)] : List (String × Nat)).foldl (fun _ sub => sub.1) "x")) :=
  ⟨⟨by decide, by decide⟩,
   C3_inorder_version_and_content "n1" [("a", 1), ("b", 2)]
     ⟨[("n1", ⟨"n1", "x", 1, []⟩)]⟩ ⟨"n1", "x", 1, []⟩ (by decide) (by decide)⟩

/-- C9: `getOrCreateDocument` is idempotent — a second call for the same
`noteId`, with any `initialContent` argument, returns the same document as
the first call and leaves the store (hence the document's content, version
and user set) unchanged. -/
theorem C9_getOrCreateDocument_idempotent (s : CollabSvc.CollabState) (n c1 c2 : String) :
    CollabSvc.getOrCreateDocument (CollabSvc.getOrCreateDocument s n c1).2 n c2 =
      CollabSvc.getOrCreateDocument s n c1 := by
  cases h : alookup s.documents n with
  | some d => simp [CollabSvc.getOrCreateDocument, h]
  | none => simp [CollabSvc.getOrCreateDocument, h]

/-- C10: every accepted call to `updateDocument` (submitted version ≥ current
version) sets the stored version to the submitted version plus one — computed
from the caller's submitted version, not from the document's current version —
and returns that version. -/
theorem C10_accepted_sets_submitted_plus_one (s : CollabSvc.CollabState)
    (n c : String) (v : Nat) (d : CollabSvc.CollabDoc)
    (hd : alookup s.documents n = some d) (hv : d.version ≤ v) :
    CollabSvc.updateDocument s n c v =
      ({ success := true, conflict := false, currentVersion := none,
         latestContent := none, version := some (v + 1) },
       ⟨aset s.documents n ({ d with content := c, version := v + 1 })⟩) := by
  simp [CollabSvc.updateDocument, CollabSvc.getOrCreateDocument, hd, Nat.not_lt.mpr hv]

/-- Witness for C10 at a concrete input: document at version 1, submitted
version 5 — the stored version jumps to 6, i.e. by more than one. -/
theorem C10_accepted_sets_submitted_plus_one_witness :
    (alookup (CollabSvc.CollabState.mk [("n1", ⟨"n1", "old", 1, []⟩)]).documents "n1" =
        some ⟨"n1", "old", 1, []⟩ ∧ (1 : Nat) ≤ 5) ∧
    CollabSvc.updateDocument ⟨[("n1", ⟨"n1", "old", 1, []⟩)]⟩ "n1" "new" 5 =
      ({ success := true, conflict := false, currentVersion := none,
         latestContent := none, version := some 6 },
       ⟨aset [("n1", ⟨"n1", "old", 1, []⟩)] "n1" ⟨"n1", "new", 6, []⟩⟩) :=
  ⟨⟨by decide, by decide⟩,
   C10_accepted_sets_submitted_plus_one ⟨[("n1", ⟨"n1", "old", 1, []⟩)]⟩ "n1" "new" 5
     ⟨"n1", "old", 1, []⟩ (by decide) (by decide)⟩

/-! ## Claims about the Socket.IO service (`src/unnamed/part_010`) and the
operation-based Synchronization Engine -/

/-- C4: starting from a session at version 1 with content `"Hello"`, a first
submission of `insert{index:5, text:" World"}` at `baseVersion` 1 returns
`{version:2, conflict:false}` and leaves content `"Hello World"`; a second
submission at `baseVersion` 1 (`insert{index:0, text:"Hi "}`) then returns
`conflict = true` together with the authoritative version 2 and content
`"Hello World"`, mutating nothing. -/
theorem C4_scenario_two_submissions_same_base :
    let sess0 : SockSvc.Session := ⟨"Hello", 1, [], []⟩
    let op1 : SockSvc.Op := ⟨SockSvc.OpKind.insert, 5, 0, " World", "userA"⟩
    let r1 := SockSvc.applyOperation sess0 op1 1
    let op2 : SockSvc.Op := ⟨SockSvc.OpKind.insert, 0, 0, "Hi ", "userB"⟩
    let r2 := SockSvc.applyOperation r1.2 op2 1
    r1.1.conflict = false ∧ r1.1.version = 2 ∧ r1.2.content = "Hello World" ∧
      r1.2.version = 2 ∧
      r2.1.conflict = true ∧ r2.1.version = 2 ∧ r2.1.content = "Hello World" ∧
      r2.2 = r1.2 := by
  decide

/-- C8: the assigned presence color is a deterministic function of the user id
alone — any two connection registrations for the same user, on any sockets
and in any states, record the same color string (`getRandomColor userId`). -/
theorem C8_assigned_color_deterministic (s1 s2 : SockSvc.SrvState)
    (sock1 sock2 u name1 name2 : String) :
    SockSvc.colorOf ((SockSvc.step s1 (SockSvc.Ev.connect sock1 u name1)).1) sock1 =
      SockSvc.colorOf ((SockSvc.step s2 (SockSvc.Ev.connect sock2 u name2)).1) sock2 := by
  simp [SockSvc.step, SockSvc.handleConnect, SockSvc.colorOf]

/-- C5 counterexample: the claim says that when a user's last connection drops
and a new connection for that user registers before the grace window expires,
no participant-removal event is ever broadcast to the remaining participants.
On the code, the removal broadcast is emitted synchronously inside the
`disconnect` handler, before the grace window even starts: with `alice` and
`bob` both joined to note `"n1"`, dropping alice's only connection emits
`users-changed ["bob"]` (alice removed) to the room at once; alice's new
connection then registers while her offline timer is still pending
(cancelling it — the final pending-timeout set is empty and the timer never
fired), yet the removal broadcast is already in the trace. -/
theorem C5_leave_broadcast_before_window_counterexample :
    let s0 : SockSvc.SrvState :=
      ⟨[], [], [], [], [], [("n1", "doc")], [("alice", "n1"), ("bob", "n1")]⟩
    let evs : List SockSvc.Ev :=
      [SockSvc.Ev.connect "s1" "alice" "Alice", SockSvc.Ev.connect "s2" "bob" "Bob",
       SockSvc.Ev.joinNote "s1" "n1", SockSvc.Ev.joinNote "s2" "n1",
       SockSvc.Ev.disconnect "s1", SockSvc.Ev.connect "s3" "alice" "Alice"]
    let r := SockSvc.runEvents s0 evs
    r.2 = [SockSvc.Effect.noteState "n1" 1 "doc",
           SockSvc.Effect.usersChanged "n1" ["alice"],
           SockSvc.Effect.noteState "n1" 1 "doc",
           SockSvc.Effect.usersChanged "n1" ["alice", "bob"],
           SockSvc.Effect.usersChanged "n1" ["bob"],
           SockSvc.Effect.typingUpdated "n1" []] ∧
      r.1.disconnectionTimeouts = [] := by
  decide

/-- C5 (amended): the grace-window timer itself performs no teardown — firing
(pending or already cancelled) emits no event and leaves the sessions,
sockets, session store, Document Store and connection registry unchanged —
and a new registration for the user cancels any pending timer; however, the
participant removal and the `users-changed` broadcast to the note's remaining
participants happen immediately inside the disconnect handler, before the
grace window, so remaining participants do observe the departure even when
the user reconnects within the window. -/
theorem C5_timer_is_sideeffect_free_and_cancelled (s : SockSvc.SrvState)
    (u sockId name : String) :
    ((SockSvc.fireUserOfflineTimer s u).2 = [] ∧
     (SockSvc.fireUserOfflineTimer s u).1.sessions = s.sessions ∧
     (SockSvc.fireUserOfflineTimer s u).1.sockets = s.sockets ∧
     (SockSvc.fireUserOfflineTimer s u).1.store = s.store ∧
     (SockSvc.fireUserOfflineTimer s u).1.noteCleanupTimers = s.noteCleanupTimers ∧
     (SockSvc.fireUserOfflineTimer s u).1.userConnections = s.userConnections) ∧
    u ∉ (SockSvc.handleConnect s sockId u name).1.disconnectionTimeouts := by
  constructor
  · by_cases h : u ∈ s.disconnectionTimeouts <;>
      simp [SockSvc.fireUserOfflineTimer, h]
  · by_cases h : u ∈ s.disconnectionTimeouts <;>
      simp [SockSvc.handleConnect, h]

/-- C6: when the last participant of a note disconnects and the grace window
then expires with no reconnection, the Document Store receives exactly one
save, carrying the final in-memory content, and that save happens before the
session's in-memory state is removed: the full effect trace of the
disconnect followed by the cleanup-timer firing is
`[users-changed [], typing-updated [], save(content), session-removed]` —
one save, ordered before the removal — after which the session is gone from
memory and the store holds the final content.  (Hypotheses: the socket is the
user's only connection and is viewing the note, the user is the only
participant, and no cleanup/offline timer is already pending.) -/
theorem C6_final_save_precedes_session_removal (s : SockSvc.SrvState)
    (sockId u name color n : String) (sess : SockSvc.Session)
    (hsock : alookup s.sockets sockId = some ⟨u, name, color, some n⟩)
    (hsess : alookup s.sessions n = some sess)
    (hpart : sess.participants = [u])
    (htyp : sess.typing = [])
    (hconn : alookup s.userConnections u = some [sockId])
    (hnt : n ∉ s.noteCleanupTimers)
    (hdt : u ∉ s.disconnectionTimeouts) :
    (SockSvc.runEvents s [SockSvc.Ev.disconnect sockId, SockSvc.Ev.noteTimerFires n]).2 =
      [SockSvc.Effect.usersChanged n [], SockSvc.Effect.typingUpdated n [],
       SockSvc.Effect.saveNote n sess.content, SockSvc.Effect.sessionRemoved n] ∧
    alookup (SockSvc.runEvents s
      [SockSvc.Ev.disconnect sockId, SockSvc.Ev.noteTimerFires n]).1.sessions n = none ∧
    alookup (SockSvc.runEvents s
      [SockSvc.Ev.disconnect sockId, SockSvc.Ev.noteTimerFires n]).1.store n =
      some sess.content := by
  simp [SockSvc.runEvents, SockSvc.step, SockSvc.handleDisconnect,
    SockSvc.handleUserLeaveNote, SockSvc.leaveSession, SockSvc.fireNoteCleanupTimer,
    SockSvc.cleanupDocument, hsock, hsess, hconn, hpart, htyp, hnt, hdt]

/-- Witness for C6 at a concrete input: a single participant `"u1"` viewing
note `"n1"` (content `"final"`, version 4) over their only socket `"s1"`. -/
theorem C6_final_save_precedes_session_removal_witness :
    let s0 : SockSvc.SrvState :=
      ⟨[("s1", ⟨"u1", "Ann", "c", some "n1"⟩)], [("u1", ["s1"])], [], [],
       [("n1", ⟨"final", 4, ["u1"], []⟩)], [("n1", "old")], []⟩
    (alookup s0.sockets "s1" = some ⟨"u1", "Ann", "c", some "n1"⟩ ∧
     alookup s0.sessions "n1" = some ⟨"final", 4, ["u1"], []⟩ ∧
     (SockSvc.Session.mk "final" 4 ["u1"] []).participants = ["u1"] ∧
     (SockSvc.Session.mk "final" 4 ["u1"] []).typing = [] ∧
     alookup s0.userConnections "u1" = some ["s1"] ∧
     "n1" ∉ s0.noteCleanupTimers ∧
     "u1" ∉ s0.disconnectionTimeouts) ∧
    ((SockSvc.runEvents s0 [SockSvc.Ev.disconnect "s1", SockSvc.Ev.noteTimerFires "n1"]).2 =
       [SockSvc.Effect.usersChanged "n1" [], SockSvc.Effect.typingUpdated "n1" [],
        SockSvc.Effect.saveNote "n1" (SockSvc.Session.mk "final" 4 ["u1"] []).content,
        SockSvc.Effect.sessionRemoved "n1"] ∧
     alookup (SockSvc.runEvents s0
       [SockSvc.Ev.disconnect "s1", SockSvc.Ev.noteTimerFires "n1"]).1.sessions "n1" = none ∧
     alookup (SockSvc.runEvents s0
       [SockSvc.Ev.disconnect "s1", SockSvc.Ev.noteTimerFires "n1"]).1.store "n1" =
       some (SockSvc.Session.mk "final" 4 ["u1"] []).content) := by
  intro s0
  exact ⟨⟨by decide, by decide, by decide, by decide, by decide, by decide, by decide⟩,
    C6_final_save_precedes_session_removal s0 "s1" "u1" "Ann" "c" "n1"
      ⟨"final", 4, ["u1"], []⟩ (by decide) (by decide) (by decide) (by decide)
      (by decide) (by decide) (by decide)⟩

/-- C7: when an upload completes with a defined `insertPosition`, the handler
synthesizes exactly one insert operation at that index whose text embeds the
upload's `url` as a markdown reference token (`uploadInsertOp`), and submits
it through the Synchronization Engine against the document's current version
— so it is accepted, splicing the token in and incrementing the version by
one; the full effect list is the upload-complete broadcast followed by that
single applied insert operation — no replace operation and no raw
whole-content replacement is ever applied or broadcast. -/
theorem C7_upload_complete_applies_single_insert (s : SockSvc.SrvState)
    (sockId n img url : String) (i : Nat) (sock : SockSvc.SockInfo)
    (sess : SockSvc.Session)
    (hsock : alookup s.sockets sockId = some sock)
    (hsess : alookup s.sessions n = some sess)
    (hn : n ≠ "") (himg : img ≠ "") (hurl : url ≠ "") :
    SockSvc.handleUploadComplete s sockId n img url (some i) =
      ({ s with sessions := aset s.sessions n ({ sess with content := SockSvc.applyOpText sess.content (SockSvc.uploadInsertOp i url sock.userId), version := sess.version + 1 }) },
       [SockSvc.Effect.uploadCompleteMsg n img url (some i),
        SockSvc.Effect.opApplied n (SockSvc.uploadInsertOp i url sock.userId) (sess.version + 1)]) := by
  simp [SockSvc.handleUploadComplete, hsock, hsess, hn, himg, hurl, SockSvc.applyOperation]

/-- Witness for C7 at a concrete input: session `"n1"` at content `"Hello"`,
version 1; upload `"img1"` completes with url `"u.png"` and insert position 5;
the spliced content is `"Hello![Image](u.png)"`. -/
theorem C7_upload_complete_applies_single_insert_witness :
    let s0 : SockSvc.SrvState :=
      ⟨[("s1", ⟨"u1", "Ann", "c", some "n1"⟩)], [("u1", ["s1"])], [], [],
       [("n1", ⟨"Hello", 1, ["u1"], []⟩)], [], []⟩
    (alookup s0.sockets "s1" = some ⟨"u1", "Ann", "c", some "n1"⟩ ∧
     alookup s0.sessions "n1" = some ⟨"Hello", 1, ["u1"], []⟩ ∧
     "n1" ≠ "" ∧ "img1" ≠ "" ∧ "u.png" ≠ "") ∧
    SockSvc.applyOpText "Hello" (SockSvc.uploadInsertOp 5 "u.png" "u1") =
      "Hello![Image](u.png)" ∧
    SockSvc.handleUploadComplete s0 "s1" "n1" "img1" "u.png" (some 5) =
      ({ s0 with sessions := aset s0.sessions "n1" ({ SockSvc.Session.mk "Hello" 1 ["u1"] [] with content := SockSvc.applyOpText "Hello" (SockSvc.uploadInsertOp 5 "u.png" "u1"), version := 2 }) },
       [SockSvc.Effect.uploadCompleteMsg "n1" "img1" "u.png" (some 5),
        SockSvc.Effect.opApplied "n1" (SockSvc.uploadInsertOp 5 "u.png" "u1") 2]) := by
  intro s0
  exact ⟨⟨by decide, by decide, by decide, by decide, by decide⟩, by decide,
    C7_upload_complete_applies_single_insert s0 "s1" "n1" "img1" "u.png" 5
      ⟨"u1", "Ann", "c", some "n1"⟩ ⟨"Hello", 1, ["u1"], []⟩
      (by decide) (by decide) (by decide) (by decide) (by decide)⟩
